import Mathlib

/-!
Verification of the Sustainability Scoring Engine of the
sustainable-marketing-evaluator repository.

The repository contains three variants of the same Streamlit application:
`app.py`, `ai.py` and `chatrobot.py`.  Each variant carries its own copy of
the scoring computation.  This file gives a shallow embedding of those
calculation functions and proves or refutes the frozen claims about them.

Modelling conventions:
- Python numbers (ints and floats) are modelled as `ℤ`, `ℕ` and `ℚ`;
  Python float arithmetic on the small decimal constants involved is
  idealised as exact rational arithmetic.
- Python `round(x, 1)` (round-half-to-even, one decimal place) is modelled
  by `round1` below, built on `roundHalfEven`.
- Python dictionaries are modelled as functions `String → Option _`;
  `d[k]` (which raises `KeyError` when `k` is absent) becomes a `match`
  whose `none` branch propagates failure, while `d.get(k, v)` becomes
  `(lookup k).getD v`.
- The `calculate_material_metrics` loop of `app.py` has no default branch
  for an unknown predefined material name: the Python local variables
  `weight`/`recyclable` then keep the value from the previous loop
  iteration, or are unbound (an `UnboundLocalError`) if no iteration set
  them yet.  The embedding carries these locals explicitly in the
  accumulator field `lastWR` and returns `none` for the unbound case.
-/

/-- Round-half-to-even on rationals, modelling Python's built-in `round`
applied to an exactly-representable value. -/
def roundHalfEven (q : ℚ) : ℤ :=
  if q - (⌊q⌋ : ℚ) < 1/2 then ⌊q⌋
  else if 1/2 < q - (⌊q⌋ : ℚ) then ⌊q⌋ + 1
  else if ⌊q⌋ % 2 = 0 then ⌊q⌋ else ⌊q⌋ + 1

/-- Python `round(x, 1)`: round to one decimal place, ties to even. -/
def round1 (q : ℚ) : ℚ := (roundHalfEven (q * 10) : ℚ) / 10

/-- One staff travel group, as collected by every variant of the app.
Fields that never enter a calculation (departure and destination city
names) are omitted. -/
structure StaffGroup where
  staffCount : ℕ
  travelDistanceKm : ℚ
  travelMode : String
  accommodation : String
deriving Repr, DecidableEq

/-- One material entry, as collected by every variant of the app. -/
structure Material where
  type : String
  quantity : ℤ
  material_type : String
  custom_weight : ℕ
  custom_recyclable : Bool
deriving Repr, DecidableEq

/-- The campaign snapshot read by the scoring functions.  Fields that the
scoring functions never read (campaign name, duration, extracted PDF text)
are omitted. -/
structure Campaign where
  staffGroups : List StaffGroup
  materials : List Material
  localVendorPercent : ℕ
  governance_checks : List Bool
  operations_checks : List Bool
deriving Repr, DecidableEq

/-- The four pillar scores returned by the scoring functions. -/
structure Scores where
  env : ℤ
  social : ℤ
  gov : ℤ
  ops : ℤ
deriving Repr, DecidableEq

/-- Sum of the four pillar scores; app.py:476 `total_score = sum(scores.values())`. -/
def total_score (s : Scores) : ℤ := s.env + s.social + s.gov + s.ops

/-- Lookup in the PREDEFINED_MATERIALS table (weight, recyclable), identical
in app.py:83-90, ai.py:73-80 and chatrobot.py:45-52.  The "Other (Custom)"
entry of the Python list has no weight/recyclable keys and is always handled
by the custom branch before this lookup, so it is absent here. -/
def PREDEFINED_MATERIALS (name : String) : Option (ℕ × Bool) :=
  if name = "Brochures" then some (3, true)
  else if name = "Flyers" then some (3, true)
  else if name = "Plastic Tote Bags" then some (8, false)
  else if name = "Cotton Tote Bags" then some (2, true)
  else if name = "Metal Badges" then some (5, true)
  else none

/-- Travel sub-score step function, identical in app.py:205, ai.py:308
and chatrobot.py:190. -/
def travel_score (total_carbon : ℚ) : ℤ :=
  if total_carbon ≤ 500 then 20
  else if 501 ≤ total_carbon ∧ total_carbon ≤ 1000 then 17
  else if 1001 ≤ total_carbon ∧ total_carbon ≤ 1500 then 14
  else if 1501 ≤ total_carbon ∧ total_carbon ≤ 2000 then 11
  else 8

/-- Recyclable bonus, identical in app.py:207, ai.py:310 and chatrobot.py:192. -/
def recyclable_bonus (recyclable_rate : ℚ) : ℤ :=
  if 70 ≤ recyclable_rate then 5
  else if 30 ≤ recyclable_rate ∧ recyclable_rate < 70 then 2
  else 0

/-- Local vendor sub-score, identical in app.py:213, ai.py:314 and
chatrobot.py:196: min(15, round(pct / 100 * 15)). -/
def local_score (pct : ℕ) : ℤ :=
  min 15 (roundHalfEven ((pct : ℚ) / 100 * 15))

namespace App

/-- The EMISSION_FACTORS dict of app.py:79-81. -/
def EMISSION_FACTORS (mode : String) : Option ℚ :=
  if mode = "Air" then some (25/100)
  else if mode = "Train" then some (6/100)
  else if mode = "Car" then some (17/100)
  else if mode = "Bus" then some (8/100)
  else if mode = "Other" then some (12/100)
  else none

/-- app.py:159-166 `calculate_total_carbon`.  The subscript
`EMISSION_FACTORS[group["Travel Mode"]]` raises `KeyError` for a mode
absent from the dict; this is modelled by `none`. -/
def calculate_total_carbon : List StaffGroup → Option ℚ
  | [] => some 0
  | g :: gs =>
    if g.travelDistanceKm ≤ 0 then calculate_total_carbon gs
    else
      match EMISSION_FACTORS g.travelMode with
      | none => none
      | some f => (calculate_total_carbon gs).map fun t =>
          g.travelDistanceKm * f * (g.staffCount : ℚ) + t

/-- Accumulator of the app.py:168-197 material loop.  `lastWR` models the
Python locals `weight`/`recyclable`, which persist across loop iterations
and are unbound before the first assignment. -/
structure MatAcc where
  total_impact : ℤ
  total_recyclable : ℤ
  total_quantity : ℤ
  total_plastic : ℤ
  lastWR : Option (ℕ × Bool)
deriving Repr, DecidableEq

/-- One iteration of the app.py:174-194 material loop. -/
def matStep (acc : MatAcc) (m : Material) : Option MatAcc :=
  if m.quantity ≤ 0 then some acc
  else
    let wr? : Option (ℕ × Bool) :=
      if m.type = "Other (Custom)" then some (m.custom_weight, m.custom_recyclable)
      else
        match PREDEFINED_MATERIALS m.type with
        | some wr => some wr
        | none => acc.lastWR
    match wr? with
    | none => none
    | some (w, r) =>
      some { total_impact := acc.total_impact + (m.quantity / 100) * (w : ℤ),
             total_recyclable :=
               if r then acc.total_recyclable + m.quantity else acc.total_recyclable,
             total_quantity := acc.total_quantity + m.quantity,
             total_plastic :=
               if m.material_type = "Plastic" then acc.total_plastic + m.quantity
               else acc.total_plastic,
             lastWR := some (w, r) }

/-- The app.py:174-194 material loop over the whole list. -/
def matLoop (acc : MatAcc) : List Material → Option MatAcc
  | [] => some acc
  | m :: ms =>
    match matStep acc m with
    | none => none
    | some acc2 => matLoop acc2 ms

/-- app.py:168-197 `calculate_material_metrics`, returning
(total_impact, recyclable_rate, total_plastic). -/
def calculate_material_metrics (ms : List Material) : Option (ℤ × ℚ × ℤ) :=
  (matLoop ⟨0, 0, 0, 0, none⟩ ms).map fun acc =>
    (acc.total_impact,
     if 0 < acc.total_quantity then
       (acc.total_recyclable : ℚ) / (acc.total_quantity : ℚ) * 100
     else 100,
     acc.total_plastic)

/-- app.py:214-220: accommodation weighted average inside `calculate_scores`. -/
def accommodation_score (groups : List StaffGroup) : ℕ :=
  let total_staff := (groups.map StaffGroup.staffCount).sum
  let total_acc_score :=
    (groups.map fun g =>
      (if g.accommodation = "Budget" ∨ g.accommodation = "3-star" then 15
       else if g.accommodation = "4-star" then 10 else 5) * g.staffCount).sum
  if 0 < total_staff then total_acc_score / total_staff else 0

/-- app.py:199-232 `calculate_scores`. -/
def calculate_scores (data : Campaign) : Option Scores :=
  match calculate_total_carbon data.staffGroups,
        calculate_material_metrics data.materials with
  | some total_carbon, some (total_material_impact, recyclable_rate, _) =>
    some { env := travel_score total_carbon +
             max 0 (20 - min 10 (total_material_impact / 5) +
               recyclable_bonus recyclable_rate),
           social := local_score data.localVendorPercent +
             (accommodation_score data.staffGroups : ℤ),
           gov := (data.governance_checks.count true : ℤ) * 4,
           ops := (data.operations_checks.count true : ℤ) * 2 }
  | _, _ => none

end App

namespace Ai

/-- The EMISSION_FACTORS dict of ai.py:61-72. -/
def EMISSION_FACTORS (mode : String) : Option ℚ :=
  if mode = "Air - Economy" then some (25/100)
  else if mode = "Air - Premium Economy" then some (35/100)
  else if mode = "Air - Business" then some (60/100)
  else if mode = "Air - First Class" then some (90/100)
  else if mode = "Train" then some (6/100)
  else if mode = "Car" then some (17/100)
  else if mode = "Bus" then some (8/100)
  else if mode = "Other" then some (12/100)
  else none

/-- The unrounded accumulated total of the ai.py:256-275 loop;
`EMISSION_FACTORS.get(travel_mode, 0.12)` defaults to the "Other" factor. -/
def rawTotal : List StaffGroup → ℚ
  | [] => 0
  | g :: gs =>
    if g.travelDistanceKm ≤ 0 then rawTotal gs
    else g.travelDistanceKm * ((EMISSION_FACTORS g.travelMode).getD (12/100)) *
           (g.staffCount : ℚ) + rawTotal gs

/-- ai.py:256-275 `calculate_total_carbon_emission`: the loop total,
rounded to one decimal on return. -/
def calculate_total_carbon_emission (groups : List StaffGroup) : ℚ :=
  round1 (rawTotal groups)

/-- Accumulator of the ai.py:277-300 material loop. -/
structure MatAcc where
  total_impact : ℤ
  total_recyclable : ℤ
  total_qty : ℤ
  total_plastic : ℤ
deriving Repr, DecidableEq

/-- Resolution of (weight, recyclable) in ai.py:287-293: custom entries use
the custom weight unless it is 0 (then 5); unknown predefined names fall
back to weight 5, non-recyclable. -/
def resolve (m : Material) : ℕ × Bool :=
  if m.type = "Other (Custom)" then
    (if m.custom_weight ≠ 0 then m.custom_weight else 5, m.custom_recyclable)
  else
    match PREDEFINED_MATERIALS m.type with
    | some wr => wr
    | none => (5, false)

/-- One iteration of the ai.py:279-297 material loop. -/
def matStep (acc : MatAcc) (m : Material) : MatAcc :=
  if m.quantity ≤ 0 then acc
  else
    let wr := resolve m
    { total_impact := acc.total_impact + (m.quantity / 100) * (wr.1 : ℤ),
      total_recyclable :=
        if wr.2 then acc.total_recyclable + m.quantity else acc.total_recyclable,
      total_qty := acc.total_qty + m.quantity,
      total_plastic :=
        if m.material_type = "Plastic" then acc.total_plastic + m.quantity
        else acc.total_plastic }

/-- ai.py:277-300 `calculate_material_metrics`, returning
(total_impact, recyclable_rate rounded to one decimal, total_plastic). -/
def calculate_material_metrics (ms : List Material) : ℤ × ℚ × ℤ :=
  let acc := ms.foldl matStep ⟨0, 0, 0, 0⟩
  (acc.total_impact,
   round1 (if 0 < acc.total_qty then
     (acc.total_recyclable : ℚ) / (acc.total_qty : ℚ) * 100 else 100),
   acc.total_plastic)

/-- The acc_score_map dict of ai.py:316; subscripting it raises `KeyError`
for an unknown accommodation, modelled by `none`. -/
def acc_score_map (a : String) : Option ℕ :=
  if a = "Budget" then some 15
  else if a = "3-star" then some 15
  else if a = "4-star" then some 10
  else if a = "5-star" then some 5
  else none

/-- ai.py:317: total accommodation points, failing on an unknown key. -/
def total_acc_score : List StaffGroup → Option ℕ
  | [] => some 0
  | g :: gs =>
    match acc_score_map g.accommodation with
    | none => none
    | some p => (total_acc_score gs).map fun t => p * g.staffCount + t

/-- ai.py:302-330 `calculate_sustainability_scores`. -/
def calculate_sustainability_scores (data : Campaign) : Option Scores :=
  let total_carbon := calculate_total_carbon_emission data.staffGroups
  let m := calculate_material_metrics data.materials
  match total_acc_score data.staffGroups with
  | none => none
  | some tas =>
    let total_staff := (data.staffGroups.map StaffGroup.staffCount).sum
    some { env := travel_score total_carbon +
             max 0 (20 - min 10 (m.1 / 5) + recyclable_bonus m.2.1),
           social := local_score data.localVendorPercent +
             ((if 0 < total_staff then tas / total_staff else 0) : ℤ),
           gov := (data.governance_checks.count true : ℤ) * 4,
           ops := (data.operations_checks.count true : ℤ) * 2 }

end Ai

namespace Chatrobot

/-- Accumulator of the chatrobot.py:163-182 material loop (no plastic
total in this variant). -/
structure MatAcc where
  total_impact : ℤ
  total_recyclable : ℤ
  total_qty : ℤ
deriving Repr, DecidableEq

/-- Resolution of (weight, recyclable) in chatrobot.py:170-176: custom
entries use the custom fields; unknown predefined names fall back to
weight 5, non-recyclable. -/
def resolve (m : Material) : ℕ × Bool :=
  if m.type = "Other (Custom)" then (m.custom_weight, m.custom_recyclable)
  else
    match PREDEFINED_MATERIALS m.type with
    | some wr => wr
    | none => (5, false)

/-- One iteration of the chatrobot.py:165-179 material loop. -/
def matStep (acc : MatAcc) (m : Material) : MatAcc :=
  if m.quantity ≤ 0 then acc
  else
    let wr := resolve m
    { total_impact := acc.total_impact + (m.quantity / 100) * (wr.1 : ℤ),
      total_recyclable :=
        if wr.2 then acc.total_recyclable + m.quantity else acc.total_recyclable,
      total_qty := acc.total_qty + m.quantity }

/-- chatrobot.py:163-182 `calculate_material_metrics`, returning
(total_impact, recyclable_rate rounded to one decimal). -/
def calculate_material_metrics (ms : List Material) : ℤ × ℚ :=
  let acc := ms.foldl matStep ⟨0, 0, 0⟩
  (acc.total_impact,
   round1 (if 0 < acc.total_qty then
     (acc.total_recyclable : ℚ) / (acc.total_qty : ℚ) * 100 else 100))

/-- The acc_score_map dict of chatrobot.py:198, read with
`.get(accommodation, 0)` in line 199. -/
def acc_score_map (a : String) : Option ℕ :=
  if a = "Budget" then some 15
  else if a = "3-star" then some 15
  else if a = "4-star" then some 10
  else if a = "5-star" then some 5
  else none

/-- chatrobot.py:197-200: accommodation weighted average inside
`calculate_sustainability_scores`, with unknown keys defaulting to 0. -/
def accommodation_score (groups : List StaffGroup) : ℕ :=
  let total_staff := (groups.map StaffGroup.staffCount).sum
  let total_acc_score :=
    (groups.map fun g => (acc_score_map g.accommodation).getD 0 * g.staffCount).sum
  if 0 < total_staff then total_acc_score / total_staff else 0

end Chatrobot

/-- The mode correspondence used when comparing the app.py variant with the
ai.py variant: ai.py:413-415 converts the old "Air" mode to "Air - Economy". -/
def renameAirGroup (g : StaffGroup) : StaffGroup :=
  { g with travelMode := if g.travelMode = "Air" then "Air - Economy" else g.travelMode }

/-- Campaign-level mode correspondence between app.py and ai.py. -/
def renameAir (data : Campaign) : Campaign :=
  { data with staffGroups := data.staffGroups.map renameAirGroup }

/-! Helper lemmas on rounding. -/

theorem floor_le_roundHalfEven (q : ℚ) : ⌊q⌋ ≤ roundHalfEven q := by
  unfold roundHalfEven
  split_ifs <;> omega

theorem roundHalfEven_le_floor_add_one (q : ℚ) : roundHalfEven q ≤ ⌊q⌋ + 1 := by
  unfold roundHalfEven
  split_ifs <;> omega

theorem roundHalfEven_eq_of_lt {q : ℚ} {f : ℤ} (hf : ⌊q⌋ = f)
    (h : q - (f : ℚ) < 1/2) : roundHalfEven q = f := by
  unfold roundHalfEven
  rw [hf, if_pos h]

theorem roundHalfEven_eq_of_gt {q : ℚ} {f : ℤ} (hf : ⌊q⌋ = f)
    (h : 1/2 < q - (f : ℚ)) : roundHalfEven q = f + 1 := by
  unfold roundHalfEven
  rw [hf, if_neg (by linarith), if_pos h]

theorem round1_eq_of_lt {q : ℚ} {f : ℤ} (hf : ⌊q * 10⌋ = f)
    (h : q * 10 - (f : ℚ) < 1/2) : round1 q = (f : ℚ) / 10 := by
  unfold round1
  rw [roundHalfEven_eq_of_lt hf h]

theorem round1_eq_of_gt {q : ℚ} {f : ℤ} (hf : ⌊q * 10⌋ = f)
    (h : 1/2 < q * 10 - (f : ℚ)) : round1 q = ((f + 1 : ℤ) : ℚ) / 10 := by
  unfold round1
  rw [roundHalfEven_eq_of_gt hf h]

theorem roundHalfEven_mono {x y : ℚ} (h : x ≤ y) :
    roundHalfEven x ≤ roundHalfEven y := by
  by_cases hf : ⌊x⌋ < ⌊y⌋
  · calc roundHalfEven x ≤ ⌊x⌋ + 1 := roundHalfEven_le_floor_add_one x
      _ ≤ ⌊y⌋ := by omega
      _ ≤ roundHalfEven y := floor_le_roundHalfEven y
  · have hfe : ⌊x⌋ = ⌊y⌋ := le_antisymm (Int.floor_le_floor h) (by omega)
    have hxy : x - (⌊x⌋ : ℚ) ≤ y - (⌊y⌋ : ℚ) := by
      rw [hfe]
      linarith
    unfold roundHalfEven
    rw [hfe] at hxy ⊢
    split_ifs <;> first | omega | linarith

theorem roundHalfEven_intCast (n : ℤ) : roundHalfEven (n : ℚ) = n := by
  unfold roundHalfEven
  rw [Int.floor_intCast]
  norm_num

theorem round1_mono {x y : ℚ} (h : x ≤ y) : round1 x ≤ round1 y := by
  unfold round1
  have h10 : x * 10 ≤ y * 10 := by linarith
  have := roundHalfEven_mono h10
  have hc : ((roundHalfEven (x * 10) : ℚ)) ≤ ((roundHalfEven (y * 10) : ℚ)) := by
    exact_mod_cast this
  linarith

theorem round1_intCast (n : ℤ) : round1 (n : ℚ) = n := by
  unfold round1
  have h : ((n : ℚ)) * 10 = ((n * 10 : ℤ) : ℚ) := by push_cast; ring
  rw [h, roundHalfEven_intCast]
  push_cast
  ring

theorem round1_nonneg {x : ℚ} (h : 0 ≤ x) : 0 ≤ round1 x := by
  have h0 : round1 ((0 : ℤ) : ℚ) = ((0 : ℤ) : ℚ) := round1_intCast 0
  have h1 := round1_mono h
  simp only [Int.cast_zero] at h0
  linarith

theorem round1_le_100 {x : ℚ} (h : x ≤ 100) : round1 x ≤ 100 := by
  have h0 : round1 ((100 : ℤ) : ℚ) = ((100 : ℤ) : ℚ) := round1_intCast 100
  have h1 := round1_mono h
  norm_num at h0
  linarith

theorem round1_zero : round1 0 = 0 := by
  have h := round1_intCast 0
  norm_num at h
  exact h

theorem round1_hundred : round1 100 = 100 := by
  have h := round1_intCast 100
  norm_num at h
  exact h

theorem local_score_100 : local_score 100 = 15 := by
  unfold local_score
  have h : ((100 : ℕ) : ℚ) / 100 * 15 = ((15 : ℤ) : ℚ) := by norm_num
  rw [h, roundHalfEven_intCast]
  norm_num

theorem local_score_0 : local_score 0 = 0 := by
  unfold local_score
  have h : ((0 : ℕ) : ℚ) / 100 * 15 = ((0 : ℤ) : ℚ) := by norm_num
  rw [h, roundHalfEven_intCast]
  norm_num

/-- C1 counterexample: the claim says a total carbon of 500.01 kg falls in
the 17-point band, but the step function shared by all variants returns the
catch-all 8 there, because no branch covers the open interval (500, 501). -/
theorem c1_travel_band_counterexample :
    travel_score (50001/100) = 8 ∧ travel_score (50001/100) ≠ 17 := by
  constructor <;> norm_num [travel_score]

/-- C1 (amended): on integer carbon totals the bands are upper-inclusive and
gap-free exactly as claimed; for every real total, carbon ≤ 500 gives 20 and
carbon > 2000 gives 8; but fractional totals strictly inside (500, 501),
(1000, 1001) or (1500, 1501) fall through every band condition and get the
catch-all 8 (so 500.01 kg gives 8, not 17). -/
theorem c1_travel_bands_amended :
    (∀ n : ℤ, travel_score (n : ℚ) =
      if n ≤ 500 then 20 else if n ≤ 1000 then 17 else if n ≤ 1500 then 14
      else if n ≤ 2000 then 11 else 8) ∧
    (∀ c : ℚ, c ≤ 500 → travel_score c = 20) ∧
    (∀ c : ℚ, 2000 < c → travel_score c = 8) ∧
    (∀ c : ℚ, (500 < c ∧ c < 501) ∨ (1000 < c ∧ c < 1001) ∨
      (1500 < c ∧ c < 1501) → travel_score c = 8) := by
  refine ⟨fun n => ?_, fun c hc => ?_, fun c hc => ?_, fun c hc => ?_⟩
  · unfold travel_score
    by_cases h1 : n ≤ 500
    · rw [if_pos (show (n : ℚ) ≤ 500 by exact_mod_cast h1), if_pos h1]
    · rw [if_neg (show ¬ (n : ℚ) ≤ 500 by exact_mod_cast h1), if_neg h1]
      by_cases h2 : n ≤ 1000
      · have ha : (501 : ℚ) ≤ (n : ℚ) := by exact_mod_cast (by omega : (501 : ℤ) ≤ n)
        have hb : (n : ℚ) ≤ 1000 := by exact_mod_cast h2
        rw [if_pos ⟨ha, hb⟩, if_pos h2]
      · have hn2 : ¬ ((501 : ℚ) ≤ (n : ℚ) ∧ (n : ℚ) ≤ 1000) := by
          rintro ⟨-, hb⟩
          exact h2 (by exact_mod_cast hb)
        rw [if_neg hn2, if_neg h2]
        by_cases h3 : n ≤ 1500
        · have ha : (1001 : ℚ) ≤ (n : ℚ) := by exact_mod_cast (by omega : (1001 : ℤ) ≤ n)
          have hb : (n : ℚ) ≤ 1500 := by exact_mod_cast h3
          rw [if_pos ⟨ha, hb⟩, if_pos h3]
        · have hn3 : ¬ ((1001 : ℚ) ≤ (n : ℚ) ∧ (n : ℚ) ≤ 1500) := by
            rintro ⟨-, hb⟩
            exact h3 (by exact_mod_cast hb)
          rw [if_neg hn3, if_neg h3]
          by_cases h4 : n ≤ 2000
          · have ha : (1501 : ℚ) ≤ (n : ℚ) := by exact_mod_cast (by omega : (1501 : ℤ) ≤ n)
            have hb : (n : ℚ) ≤ 2000 := by exact_mod_cast h4
            rw [if_pos ⟨ha, hb⟩, if_pos h4]
          · have hn4 : ¬ ((1501 : ℚ) ≤ (n : ℚ) ∧ (n : ℚ) ≤ 2000) := by
              rintro ⟨-, hb⟩
              exact h4 (by exact_mod_cast hb)
            rw [if_neg hn4, if_neg h4]
  · unfold travel_score
    rw [if_pos hc]
  · unfold travel_score
    split_ifs with h1 h2 h3 h4
    · linarith
    · linarith [h2.2]
    · linarith [h3.2]
    · linarith [h4.2]
    · rfl
  · unfold travel_score
    rcases hc with ⟨ha, hb⟩ | ⟨ha, hb⟩ | ⟨ha, hb⟩ <;>
      split_ifs with h1 h2 h3 h4 <;> first | rfl | linarith

/-- Witness for the amended C1 at concrete inputs. -/
theorem c1_travel_bands_witness : travel_score 300 = 20 ∧ travel_score (4001/2) = 8 :=
  ⟨c1_travel_bands_amended.2.1 300 (by norm_num),
   c1_travel_bands_amended.2.2.1 (4001/2) (by norm_num)⟩

/-- C2 counterexample: in app.py, a travel group with positive distance and
a mode outside the emission-factor table makes `calculate_total_carbon`
raise a `KeyError` (modelled as `none`) instead of falling back to the
"Other" factor. -/
theorem c2_unknown_mode_counterexample :
    App.calculate_total_carbon [⟨1, 10, "Boat", "Budget"⟩] = none := by
  have h : ¬ ((10 : ℚ) ≤ 0) := by norm_num
  simp [App.calculate_total_carbon, h, App.EMISSION_FACTORS]

/-- C2 (amended): ai.py's travel emission calculator falls back to the
"Other" factor 0.12 for an unrecognized mode of a positive-distance group
and returns a total normally (it is a total function); app.py's calculator,
by contrast, subscripts the emission-factor dict directly and fails with a
`KeyError` on an unrecognized mode instead of surfacing a total. -/
theorem c2_unknown_mode_amended :
    (∀ g gs, 0 < g.travelDistanceKm → Ai.EMISSION_FACTORS g.travelMode = none →
      Ai.rawTotal (g :: gs) =
        g.travelDistanceKm * (12/100) * (g.staffCount : ℚ) + Ai.rawTotal gs) ∧
    (∀ g gs, 0 < g.travelDistanceKm → App.EMISSION_FACTORS g.travelMode = none →
      App.calculate_total_carbon (g :: gs) = none) := by
  constructor
  · intro g gs hd hm
    rw [Ai.rawTotal, if_neg (not_le.mpr hd), hm]
    rfl
  · intro g gs hd hm
    rw [App.calculate_total_carbon, if_neg (not_le.mpr hd), hm]

/-- Witness for the amended C2 at a concrete unknown mode. -/
theorem c2_unknown_mode_witness :
    Ai.rawTotal [⟨3, 10, "Boat", "Budget"⟩] =
      10 * (12/100) * ((3 : ℕ) : ℚ) + Ai.rawTotal [] ∧
    App.calculate_total_carbon [⟨3, 10, "Boat", "Budget"⟩] = none :=
  ⟨c2_unknown_mode_amended.1 ⟨3, 10, "Boat", "Budget"⟩ [] (by norm_num) (by rfl),
   c2_unknown_mode_amended.2 ⟨3, 10, "Boat", "Budget"⟩ [] (by norm_num) (by rfl)⟩

/-- C3 counterexample: in app.py, a positive-quantity material entry whose
name is unknown to the predefined table makes `calculate_material_metrics`
fail (Python `UnboundLocalError`, modelled as `none`) instead of resolving
the entry to weight 5 and non-recyclable. -/
theorem c3_unknown_material_counterexample :
    App.calculate_material_metrics [⟨"Bamboo Plates", 100, "Custom", 0, false⟩] = none := by
  have h : ¬ ((100 : ℤ) ≤ 0) := by norm_num
  simp [App.calculate_material_metrics, App.matLoop, App.matStep, h, PREDEFINED_MATERIALS]

/-- C3 (amended): the analyzers of ai.py and chatrobot.py resolve a
positive-quantity entry with an unknown predefined name to weight 5 and
non-recyclable and never fail; app.py's analyzer applies no such default:
its loop fails on the entry when no earlier iteration assigned the weight
variables, and otherwise silently reuses the previous entry's weight and
recyclability. -/
theorem c3_unknown_material_amended :
    (∀ m : Material, m.type ≠ "Other (Custom)" → PREDEFINED_MATERIALS m.type = none →
      Ai.resolve m = (5, false) ∧ Chatrobot.resolve m = (5, false)) ∧
    (∀ (acc : App.MatAcc) (m : Material), acc.lastWR = none → 0 < m.quantity →
      m.type ≠ "Other (Custom)" → PREDEFINED_MATERIALS m.type = none →
      App.matStep acc m = none) ∧
    (∀ (acc : App.MatAcc) (m : Material) (w : ℕ) (r : Bool),
      acc.lastWR = some (w, r) → 0 < m.quantity →
      m.type ≠ "Other (Custom)" → PREDEFINED_MATERIALS m.type = none →
      App.matStep acc m =
        some ⟨acc.total_impact + (m.quantity / 100) * (w : ℤ),
          if r then acc.total_recyclable + m.quantity else acc.total_recyclable,
          acc.total_quantity + m.quantity,
          if m.material_type = "Plastic" then acc.total_plastic + m.quantity
            else acc.total_plastic,
          some (w, r)⟩) := by
  refine ⟨fun m ht hl => ⟨?_, ?_⟩, fun acc m hw hq ht hl => ?_, fun acc m w r hw hq ht hl => ?_⟩
  · rw [Ai.resolve, if_neg ht, hl]
  · rw [Chatrobot.resolve, if_neg ht, hl]
  · rw [App.matStep, if_neg (not_le.mpr hq)]
    simp only [if_neg ht, hl, hw]
  · rw [App.matStep, if_neg (not_le.mpr hq)]
    simp only [if_neg ht, hl, hw]

/-- Witness for the amended C3 at a concrete unknown material name. -/
theorem c3_unknown_material_witness :
    Ai.resolve ⟨"Bamboo Plates", 100, "Custom", 0, false⟩ = (5, false) ∧
    App.matStep ⟨0, 0, 0, 0, none⟩ ⟨"Bamboo Plates", 100, "Custom", 0, false⟩ = none :=
  ⟨(c3_unknown_material_amended.1 ⟨"Bamboo Plates", 100, "Custom", 0, false⟩
      (by decide) (by rfl)).1,
   c3_unknown_material_amended.2.1 ⟨0, 0, 0, 0, none⟩
      ⟨"Bamboo Plates", 100, "Custom", 0, false⟩ (by rfl) (by norm_num)
      (by decide) (by rfl)⟩

/-- C9: the snapshot with no materials, a single zero-distance Budget travel
group, 100 percent local vendors and all ten checklist answers true scores
Environmental Impact 45 (above the stated 40-point maximum) and total
45 + 30 + 20 + 10 = 105 (above 100), in both app.py and ai.py. -/
theorem c9_score_overflow :
    App.calculate_scores ⟨[⟨1, 0, "Other", "Budget"⟩], [], 100,
      [true, true, true, true, true], [true, true, true, true, true]⟩ =
      some ⟨45, 30, 20, 10⟩ ∧
    Ai.calculate_sustainability_scores ⟨[⟨1, 0, "Other", "Budget"⟩], [], 100,
      [true, true, true, true, true], [true, true, true, true, true]⟩ =
      some ⟨45, 30, 20, 10⟩ ∧
    total_score ⟨45, 30, 20, 10⟩ = 105 := by
  have hts : travel_score 0 = 20 := by norm_num [travel_score]
  have hrb : recyclable_bonus 100 = 5 := by norm_num [recyclable_bonus]
  refine ⟨?_, ?_, by norm_num [total_score]⟩
  · have hc : App.calculate_total_carbon [⟨1, 0, "Other", "Budget"⟩] = some 0 := by
      simp [App.calculate_total_carbon]
    have hm : App.calculate_material_metrics ([] : List Material) = some (0, 100, 0) := by
      simp [App.calculate_material_metrics, App.matLoop]
    have hacc : App.accommodation_score [⟨1, 0, "Other", "Budget"⟩] = 15 := by decide
    simp only [App.calculate_scores, hc, hm, hts, hrb, hacc, local_score_100]
    decide
  · have hraw : Ai.rawTotal [⟨1, 0, "Other", "Budget"⟩] = 0 := by simp [Ai.rawTotal]
    have hcA : Ai.calculate_total_carbon_emission [⟨1, 0, "Other", "Budget"⟩] = 0 := by
      rw [Ai.calculate_total_carbon_emission, hraw, round1_zero]
    have hmA : Ai.calculate_material_metrics ([] : List Material) = (0, 100, 0) := by
      rw [Ai.calculate_material_metrics]
      simp [round1_hundred]
    have haccA : Ai.total_acc_score [⟨1, 0, "Other", "Budget"⟩] = some 15 := by decide
    simp only [Ai.calculate_sustainability_scores, hcA, hmA, haccA, hts, hrb, local_score_100]
    decide

/-- Helper for C8: skipping a non-positive-quantity entry anywhere in the
app.py material loop leaves the loop state unchanged. -/
theorem App.matLoop_drop_nonpos (m : Material) (hq : m.quantity ≤ 0)
    (ms2 : List Material) :
    ∀ (ms1 : List Material) (acc : App.MatAcc),
      App.matLoop acc (ms1 ++ m :: ms2) = App.matLoop acc (ms1 ++ ms2) := by
  intro ms1
  induction ms1 with
  | nil =>
    intro acc
    have hstep : App.matStep acc m = some acc := by
      rw [App.matStep, if_pos hq]
    simp [App.matLoop, hstep]
  | cons a ms1 ih =>
    intro acc
    cases h : App.matStep acc a with
    | none => simp [App.matLoop, h]
    | some acc2 => simp [App.matLoop, h, ih acc2]

/-- C8: removing a material entry with non-positive quantity from anywhere
in the list leaves every output of app.py's `calculate_material_metrics`
unchanged: such entries are excluded from every calculation. -/
theorem c8_nonpositive_entries_excluded :
    ∀ (ms1 : List Material) (m : Material) (ms2 : List Material), m.quantity ≤ 0 →
      App.calculate_material_metrics (ms1 ++ m :: ms2) =
        App.calculate_material_metrics (ms1 ++ ms2) := by
  intro ms1 m ms2 hq
  unfold App.calculate_material_metrics
  rw [App.matLoop_drop_nonpos m hq ms2 ms1]

/-- Witness for C8 at a concrete list. -/
theorem c8_nonpositive_entries_excluded_witness :
    App.calculate_material_metrics
      [⟨"Brochures", 200, "Paper", 0, false⟩, ⟨"Plastic Tote Bags", 0, "Plastic", 0, false⟩,
       ⟨"Flyers", 100, "Paper", 0, false⟩] =
    App.calculate_material_metrics
      [⟨"Brochures", 200, "Paper", 0, false⟩, ⟨"Flyers", 100, "Paper", 0, false⟩] :=
  c8_nonpositive_entries_excluded [⟨"Brochures", 200, "Paper", 0, false⟩]
    ⟨"Plastic Tote Bags", 0, "Plastic", 0, false⟩
    [⟨"Flyers", 100, "Paper", 0, false⟩] (by norm_num)

/-- C4: whenever app.py's score computation succeeds, its Environmental
pillar is the travel sub-score plus the material sub-score
max(0, 20 − min(10, totalImpact / 5) + recyclableBonus(rate)), clamped only
below at 0; and the empty materials list yields totalImpact 0, rate 100 and
material sub-score 25. -/
theorem c4_material_subscore :
    (∀ (data : Campaign) (tc : ℚ) (ti : ℤ) (rate : ℚ) (tp : ℤ),
      App.calculate_total_carbon data.staffGroups = some tc →
      App.calculate_material_metrics data.materials = some (ti, rate, tp) →
      App.calculate_scores data = some
        { env := travel_score tc + max 0 (20 - min 10 (ti / 5) + recyclable_bonus rate),
          social := local_score data.localVendorPercent +
            (App.accommodation_score data.staffGroups : ℤ),
          gov := (data.governance_checks.count true : ℤ) * 4,
          ops := (data.operations_checks.count true : ℤ) * 2 }) ∧
    (App.calculate_material_metrics ([] : List Material) = some (0, 100, 0) ∧
      max 0 (20 - min 10 ((0 : ℤ) / 5) + recyclable_bonus 100) = 25) := by
  refine ⟨fun data tc ti rate tp h1 h2 => ?_, ?_, ?_⟩
  · unfold App.calculate_scores
    rw [h1, h2]
  · simp [App.calculate_material_metrics, App.matLoop]
  · norm_num [recyclable_bonus]

/-- Witness for C4 at a concrete campaign with an empty materials list. -/
theorem c4_material_subscore_witness :
    App.calculate_scores ⟨[⟨1, 0, "Other", "Budget"⟩], [], 0, [], []⟩ = some
      { env := travel_score 0 + max 0 (20 - min 10 ((0 : ℤ) / 5) + recyclable_bonus 100),
        social := local_score 0 + (App.accommodation_score [⟨1, 0, "Other", "Budget"⟩] : ℤ),
        gov := (([] : List Bool).count true : ℤ) * 4,
        ops := (([] : List Bool).count true : ℤ) * 2 } :=
  c4_material_subscore.1 ⟨[⟨1, 0, "Other", "Budget"⟩], [], 0, [], []⟩ 0 0 100 0
    (by simp [App.calculate_total_carbon])
    (by simp [App.calculate_material_metrics, App.matLoop])

/-- C6: given valid accommodation values, app.py's accommodation sub-score
is the floor division of the per-person-point weighted sum (Budget 15,
3-star 15, 4-star 10, 5-star 5) by the total staff count, equal to 0 when
the total staff count is 0, and chatrobot.py computes the same value. -/
theorem c6_accommodation_weighted_average :
    ∀ groups : List StaffGroup,
      (∀ g ∈ groups, g.accommodation = "Budget" ∨ g.accommodation = "3-star" ∨
        g.accommodation = "4-star" ∨ g.accommodation = "5-star") →
      App.accommodation_score groups =
        (if (groups.map StaffGroup.staffCount).sum = 0 then 0
         else ((groups.map fun g =>
            (if g.accommodation = "Budget" then 15
             else if g.accommodation = "3-star" then 15
             else if g.accommodation = "4-star" then 10 else 5) * g.staffCount).sum) /
           (groups.map StaffGroup.staffCount).sum) ∧
      Chatrobot.accommodation_score groups = App.accommodation_score groups := by
  intro groups hvalid
  have hpt : ∀ a : String,
      (if a = "Budget" ∨ a = "3-star" then (15 : ℕ) else if a = "4-star" then 10 else 5) =
      (if a = "Budget" then 15 else if a = "3-star" then 15
       else if a = "4-star" then 10 else 5) := by
    intro a
    by_cases h1 : a = "Budget" <;> by_cases h2 : a = "3-star" <;> simp [h1, h2]
  constructor
  · unfold App.accommodation_score
    simp only [hpt]
    rcases Nat.eq_zero_or_pos ((groups.map StaffGroup.staffCount).sum) with h | h
    · simp [h]
    · rw [if_pos h, if_neg (Nat.pos_iff_ne_zero.mp h)]
  · have hsum :
        groups.map (fun g => (Chatrobot.acc_score_map g.accommodation).getD 0 * g.staffCount) =
        groups.map (fun g =>
          (if g.accommodation = "Budget" ∨ g.accommodation = "3-star" then (15 : ℕ)
           else if g.accommodation = "4-star" then 10 else 5) * g.staffCount) := by
      apply List.map_congr_left
      intro g hg
      rcases hvalid g hg with h | h | h | h <;> simp [Chatrobot.acc_score_map, h]
    unfold Chatrobot.accommodation_score App.accommodation_score
    rw [hsum]

/-- Witness for C6 at a concrete two-group list. -/
theorem c6_accommodation_weighted_average_witness :
    Chatrobot.accommodation_score [⟨2, 0, "Car", "Budget"⟩, ⟨3, 0, "Car", "5-star"⟩] =
      App.accommodation_score [⟨2, 0, "Car", "Budget"⟩, ⟨3, 0, "Car", "5-star"⟩] :=
  (c6_accommodation_weighted_average
    [⟨2, 0, "Car", "Budget"⟩, ⟨3, 0, "Car", "5-star"⟩] (by decide)).2

/-- Helper: the recyclable-rate expression shared by all analyzer variants
lies in [0, 100] whenever 0 ≤ recyclable ≤ quantity. -/
theorem rate_expr_bounds {rec qty : ℤ} (h0 : 0 ≤ rec) (h1 : rec ≤ qty) :
    0 ≤ (if 0 < qty then (rec : ℚ) / (qty : ℚ) * 100 else 100) ∧
    (if 0 < qty then (rec : ℚ) / (qty : ℚ) * 100 else 100) ≤ 100 := by
  split_ifs with h
  · have hq : (0 : ℚ) < (qty : ℚ) := by exact_mod_cast h
    have hr : (0 : ℚ) ≤ (rec : ℚ) := by exact_mod_cast h0
    have hrq : (rec : ℚ) ≤ (qty : ℚ) := by exact_mod_cast h1
    constructor
    · exact mul_nonneg (div_nonneg hr hq.le) (by norm_num)
    · calc (rec : ℚ) / (qty : ℚ) * 100 ≤ 1 * 100 := by
            exact mul_le_mul_of_nonneg_right ((div_le_one hq).mpr hrq) (by norm_num)
        _ = 100 := by norm_num
  · norm_num

/-- Helper: one successful app.py material-loop step preserves the
invariants 0 ≤ impact, 0 ≤ recyclable ≤ quantity. -/
theorem App.matStep_bounds {acc acc2 : App.MatAcc} {m : Material}
    (h : App.matStep acc m = some acc2)
    (h1 : 0 ≤ acc.total_impact) (h2 : 0 ≤ acc.total_recyclable)
    (h3 : acc.total_recyclable ≤ acc.total_quantity) :
    0 ≤ acc2.total_impact ∧ 0 ≤ acc2.total_recyclable ∧
      acc2.total_recyclable ≤ acc2.total_quantity := by
  unfold App.matStep at h
  by_cases hq : m.quantity ≤ 0
  · rw [if_pos hq] at h
    cases h
    exact ⟨h1, h2, h3⟩
  · rw [if_neg hq] at h
    push_neg at hq
    simp only at h
    cases hwr : (if m.type = "Other (Custom)" then
        some (m.custom_weight, m.custom_recyclable)
      else
        match PREDEFINED_MATERIALS m.type with
        | some wr => some wr
        | none => acc.lastWR) with
    | none => rw [hwr] at h; cases h
    | some wr =>
      rw [hwr] at h
      obtain ⟨w, r⟩ := wr
      cases h
      refine ⟨?_, ?_, ?_⟩
      · have hw : (0 : ℤ) ≤ (m.quantity / 100) * (w : ℤ) :=
          mul_nonneg (Int.ediv_nonneg hq.le (by norm_num)) (by positivity)
        simpa using add_nonneg h1 hw
      · simp only
        split_ifs
        · linarith
        · exact h2
      · simp only
        split_ifs
        · linarith
        · linarith

/-- Helper: the app.py material loop preserves the invariants. -/
theorem App.matLoop_bounds :
    ∀ (ms : List Material) (acc res : App.MatAcc),
      App.matLoop acc ms = some res →
      0 ≤ acc.total_impact → 0 ≤ acc.total_recyclable →
      acc.total_recyclable ≤ acc.total_quantity →
      0 ≤ res.total_impact ∧ 0 ≤ res.total_recyclable ∧
        res.total_recyclable ≤ res.total_quantity := by
  intro ms
  induction ms with
  | nil =>
    intro acc res h h1 h2 h3
    rw [App.matLoop] at h
    cases h
    exact ⟨h1, h2, h3⟩
  | cons m ms ih =>
    intro acc res h h1 h2 h3
    rw [App.matLoop] at h
    cases hstep : App.matStep acc m with
    | none => rw [hstep] at h; cases h
    | some acc2 =>
      rw [hstep] at h
      obtain ⟨g1, g2, g3⟩ := App.matStep_bounds hstep h1 h2 h3
      exact ih acc2 res h g1 g2 g3

/-- Helper: one chatrobot.py material-loop step preserves the invariants. -/
theorem Chatrobot.matStep_invariant (acc : Chatrobot.MatAcc) (m : Material)
    (h1 : 0 ≤ acc.total_impact) (h2 : 0 ≤ acc.total_recyclable)
    (h3 : acc.total_recyclable ≤ acc.total_qty) :
    0 ≤ (Chatrobot.matStep acc m).total_impact ∧
    0 ≤ (Chatrobot.matStep acc m).total_recyclable ∧
    (Chatrobot.matStep acc m).total_recyclable ≤ (Chatrobot.matStep acc m).total_qty := by
  unfold Chatrobot.matStep
  by_cases hq : m.quantity ≤ 0
  · rw [if_pos hq]
    exact ⟨h1, h2, h3⟩
  · rw [if_neg hq]
    push_neg at hq
    refine ⟨?_, ?_, ?_⟩
    · have hw : (0 : ℤ) ≤ (m.quantity / 100) * ((Chatrobot.resolve m).1 : ℤ) :=
        mul_nonneg (Int.ediv_nonneg hq.le (by norm_num)) (by positivity)
      simpa using add_nonneg h1 hw
    · simp only
      split_ifs
      · linarith
      · exact h2
    · simp only
      split_ifs
      · linarith
      · linarith

/-- Helper: the chatrobot.py material loop preserves the invariants. -/
theorem Chatrobot.matLoop_invariant :
    ∀ (ms : List Material) (acc : Chatrobot.MatAcc),
      0 ≤ acc.total_impact → 0 ≤ acc.total_recyclable →
      acc.total_recyclable ≤ acc.total_qty →
      0 ≤ (ms.foldl Chatrobot.matStep acc).total_impact ∧
      0 ≤ (ms.foldl Chatrobot.matStep acc).total_recyclable ∧
      (ms.foldl Chatrobot.matStep acc).total_recyclable ≤
        (ms.foldl Chatrobot.matStep acc).total_qty := by
  intro ms
  induction ms with
  | nil =>
    intro acc h1 h2 h3
    exact ⟨h1, h2, h3⟩
  | cons m ms ih =>
    intro acc h1 h2 h3
    rw [List.foldl_cons]
    obtain ⟨g1, g2, g3⟩ := Chatrobot.matStep_invariant acc m h1 h2 h3
    exact ih _ g1 g2 g3

/-- Helper: when every positive-quantity entry is custom or has a known
predefined name, the app.py material loop succeeds with the same impact,
recyclable and quantity totals as the chatrobot.py fold. -/
theorem App.matLoop_agrees_chatrobot :
    ∀ (ms : List Material),
      (∀ m ∈ ms, 0 < m.quantity →
        m.type = "Other (Custom)" ∨ (PREDEFINED_MATERIALS m.type).isSome) →
      ∀ (acc res : App.MatAcc),
        App.matLoop acc ms = some res →
        ms.foldl Chatrobot.matStep
            ⟨acc.total_impact, acc.total_recyclable, acc.total_quantity⟩ =
          ⟨res.total_impact, res.total_recyclable, res.total_quantity⟩ := by
  intro ms
  induction ms with
  | nil =>
    intro h acc res hres
    rw [App.matLoop] at hres
    cases hres
    rfl
  | cons m ms ih =>
    intro h acc res hres
    have htail : ∀ m2 ∈ ms, 0 < m2.quantity →
        m2.type = "Other (Custom)" ∨ (PREDEFINED_MATERIALS m2.type).isSome :=
      fun m2 hm2 => h m2 (List.mem_cons_of_mem _ hm2)
    rw [App.matLoop] at hres
    rw [List.foldl_cons]
    by_cases hq : m.quantity ≤ 0
    · have hstep : App.matStep acc m = some acc := by
        rw [App.matStep, if_pos hq]
      rw [hstep] at hres
      have hcs : Chatrobot.matStep
          ⟨acc.total_impact, acc.total_recyclable, acc.total_quantity⟩ m =
          ⟨acc.total_impact, acc.total_recyclable, acc.total_quantity⟩ := by
        rw [Chatrobot.matStep, if_pos hq]
      rw [hcs]
      exact ih htail acc res hres
    · push_neg at hq
      by_cases hc : m.type = "Other (Custom)"
      · have hstep : App.matStep acc m = some
            ⟨acc.total_impact + (m.quantity / 100) * (m.custom_weight : ℤ),
             if m.custom_recyclable then acc.total_recyclable + m.quantity
               else acc.total_recyclable,
             acc.total_quantity + m.quantity,
             if m.material_type = "Plastic" then acc.total_plastic + m.quantity
               else acc.total_plastic,
             some (m.custom_weight, m.custom_recyclable)⟩ := by
          rw [App.matStep, if_neg (not_le.mpr hq)]
          simp only [if_pos hc]
        rw [hstep] at hres
        have hcs : Chatrobot.matStep
            ⟨acc.total_impact, acc.total_recyclable, acc.total_quantity⟩ m =
            ⟨acc.total_impact + (m.quantity / 100) * (m.custom_weight : ℤ),
             if m.custom_recyclable then acc.total_recyclable + m.quantity
               else acc.total_recyclable,
             acc.total_quantity + m.quantity⟩ := by
          rw [Chatrobot.matStep, if_neg (not_le.mpr hq)]
          simp only [Chatrobot.resolve, if_pos hc]
        rw [hcs]
        exact ih htail _ res hres
      · have hs : (PREDEFINED_MATERIALS m.type).isSome :=
          (h m (List.mem_cons_self m ms) hq).resolve_left hc
        obtain ⟨wr, hwr⟩ := Option.isSome_iff_exists.mp hs
        obtain ⟨w, r⟩ := wr
        have hstep : App.matStep acc m = some
            ⟨acc.total_impact + (m.quantity / 100) * (w : ℤ),
             if r then acc.total_recyclable + m.quantity else acc.total_recyclable,
             acc.total_quantity + m.quantity,
             if m.material_type = "Plastic" then acc.total_plastic + m.quantity
               else acc.total_plastic,
             some (w, r)⟩ := by
          rw [App.matStep, if_neg (not_le.mpr hq)]
          simp only [if_neg hc, hwr]
        rw [hstep] at hres
        have hcs : Chatrobot.matStep
            ⟨acc.total_impact, acc.total_recyclable, acc.total_quantity⟩ m =
            ⟨acc.total_impact + (m.quantity / 100) * (w : ℤ),
             if r then acc.total_recyclable + m.quantity else acc.total_recyclable,
             acc.total_quantity + m.quantity⟩ := by
          rw [Chatrobot.matStep, if_neg (not_le.mpr hq)]
          simp only [Chatrobot.resolve, if_neg hc, hwr]
        rw [hcs]
        exact ih htail _ res hres

/-- Helper: the app.py material loop ignores a list of entries that all
have non-positive quantity. -/
theorem App.matLoop_all_nonpos :
    ∀ (ms : List Material) (acc : App.MatAcc), (∀ m ∈ ms, m.quantity ≤ 0) →
      App.matLoop acc ms = some acc := by
  intro ms
  induction ms with
  | nil => intro acc _; rfl
  | cons m ms ih =>
    intro acc h
    have hstep : App.matStep acc m = some acc := by
      rw [App.matStep, if_pos (h m (List.mem_cons_self m ms))]
    rw [App.matLoop, hstep]
    exact ih acc fun m2 hm2 => h m2 (List.mem_cons_of_mem _ hm2)

/-- Helper: the chatrobot.py material fold ignores a list of entries that
all have non-positive quantity. -/
theorem Chatrobot.foldl_all_nonpos :
    ∀ (ms : List Material) (acc : Chatrobot.MatAcc), (∀ m ∈ ms, m.quantity ≤ 0) →
      ms.foldl Chatrobot.matStep acc = acc := by
  intro ms
  induction ms with
  | nil => intro acc _; rfl
  | cons m ms ih =>
    intro acc h
    rw [List.foldl_cons]
    have hcs : Chatrobot.matStep acc m = acc := by
      rw [Chatrobot.matStep, if_pos (h m (List.mem_cons_self m ms))]
    rw [hcs]
    exact ih acc fun m2 hm2 => h m2 (List.mem_cons_of_mem _ hm2)

/-- C5 counterexample: chatrobot.py (like ai.py) returns the recyclable
rate rounded to one decimal, so for one recyclable unit out of three the
returned rate is 33.3, not the exact 100/3 the claim asserts. -/
theorem c5_rate_rounded_counterexample :
    Chatrobot.calculate_material_metrics
      [⟨"Brochures", 1, "Paper", 0, false⟩, ⟨"Plastic Tote Bags", 2, "Plastic", 0, false⟩] =
      (0, 333/10) ∧ (333/10 : ℚ) ≠ (1 : ℚ) / (3 : ℚ) * 100 := by
  constructor
  · have hacc : List.foldl Chatrobot.matStep ⟨0, 0, 0⟩
        [⟨"Brochures", 1, "Paper", 0, false⟩,
         ⟨"Plastic Tote Bags", 2, "Plastic", 0, false⟩] =
        (⟨0, 1, 3⟩ : Chatrobot.MatAcc) := by decide
    rw [Chatrobot.calculate_material_metrics, hacc]
    have hexpr : (if (0 : ℤ) < 3 then ((1 : ℤ) : ℚ) / ((3 : ℤ) : ℚ) * 100 else 100) =
        (100 / 3 : ℚ) := by norm_num
    simp only [hexpr]
    rw [round1_eq_of_lt (f := 333) (by norm_num) (by norm_num)]
    norm_num
  · norm_num

/-- Helper: every emission factor ai.py can use (table hit or the 0.12
default) is non-negative. -/
theorem Ai.factor_nonneg (mode : String) :
    0 ≤ (Ai.EMISSION_FACTORS mode).getD (12/100) := by
  unfold Ai.EMISSION_FACTORS
  split_ifs <;> norm_num

/-- Helper: the unrounded ai.py emission total is non-negative. -/
theorem Ai.rawTotal_nonneg : ∀ gs : List StaffGroup, 0 ≤ Ai.rawTotal gs := by
  intro gs
  induction gs with
  | nil => norm_num [Ai.rawTotal]
  | cons g gs ih =>
    rw [Ai.rawTotal]
    split_ifs with hd
    · exact ih
    · push_neg at hd
      have hterm : 0 ≤ g.travelDistanceKm *
          ((Ai.EMISSION_FACTORS g.travelMode).getD (12/100)) * (g.staffCount : ℚ) := by
        apply mul_nonneg (mul_nonneg hd.le (Ai.factor_nonneg g.travelMode))
        positivity
      linarith

/-- Helper: the unrounded ai.py emission total is monotone when each
group's distance and staff count grow while its mode is unchanged. -/
theorem Ai.rawTotal_mono : ∀ {gs1 gs2 : List StaffGroup},
    List.Forall₂ (fun g1 g2 => g1.travelMode = g2.travelMode ∧
      g1.staffCount ≤ g2.staffCount ∧ g1.travelDistanceKm ≤ g2.travelDistanceKm) gs1 gs2 →
    Ai.rawTotal gs1 ≤ Ai.rawTotal gs2 := by
  intro gs1 gs2 h
  induction h with
  | nil => exact le_refl _
  | @cons a b l1 l2 hab htail ih =>
    obtain ⟨hm, hs, hd⟩ := hab
    rw [Ai.rawTotal, Ai.rawTotal]
    by_cases ha : a.travelDistanceKm ≤ 0
    · rw [if_pos ha]
      split_ifs with hb
      · exact ih
      · push_neg at hb
        have hterm : 0 ≤ b.travelDistanceKm *
            ((Ai.EMISSION_FACTORS b.travelMode).getD (12/100)) * (b.staffCount : ℚ) := by
          apply mul_nonneg (mul_nonneg hb.le (Ai.factor_nonneg b.travelMode))
          positivity
        linarith
    · push_neg at ha
      have hb : ¬ b.travelDistanceKm ≤ 0 := by
        push_neg
        linarith
      rw [if_neg (not_le.mpr ha), if_neg hb, hm]
      have hterm : a.travelDistanceKm *
          ((Ai.EMISSION_FACTORS b.travelMode).getD (12/100)) * (a.staffCount : ℚ) ≤
          b.travelDistanceKm *
          ((Ai.EMISSION_FACTORS b.travelMode).getD (12/100)) * (b.staffCount : ℚ) := by
        have hsq : ((a.staffCount : ℕ) : ℚ) ≤ ((b.staffCount : ℕ) : ℚ) := by
          exact_mod_cast hs
        have hf := Ai.factor_nonneg b.travelMode
        have hbd : 0 < b.travelDistanceKm := lt_of_lt_of_le ha hd
        apply mul_le_mul
        · exact mul_le_mul_of_nonneg_right hd hf
        · exact hsq
        · exact Nat.cast_nonneg _
        · exact mul_nonneg hbd.le hf
      linarith

/-- C7 counterexample: ai.py rounds the emission total to one decimal on
return, so a single one-kilometre Train trip for one person yields 0.1,
not the exact sum 1 × 0.06 × 1 = 0.06 the claim asserts. -/
theorem c7_emission_rounded_counterexample :
    Ai.calculate_total_carbon_emission [⟨1, 1, "Train", "Budget"⟩] = 1/10 ∧
    (1/10 : ℚ) ≠ 1 * (6/100) * 1 := by
  constructor
  · have hfac : (Ai.EMISSION_FACTORS "Train").getD (12/100) = 6/100 := by rfl
    have hraw : Ai.rawTotal [⟨1, 1, "Train", "Budget"⟩] = 6/100 := by
      simp only [Ai.rawTotal, hfac]
      norm_num
    rw [Ai.calculate_total_carbon_emission, hraw]
    rw [round1_eq_of_gt (f := 0) (by norm_num) (by norm_num)]
    norm_num
  · norm_num

/-- C7 (amended): app.py's calculator returns the exact sum of
distance × factor × staff over positive-distance groups whenever every such
group's mode is in its table; ai.py's calculator returns the analogous sum
built with the default-0.12 lookup, rounded to one decimal; in both,
groups with non-positive distance contribute exactly zero, and ai.py's
result is non-negative and monotone in each group's distance and staff
count. -/
theorem c7_emission_amended :
    (∀ gs : List StaffGroup,
      Ai.calculate_total_carbon_emission gs = round1 (Ai.rawTotal gs)) ∧
    (∀ (g : StaffGroup) (gs : List StaffGroup), g.travelDistanceKm ≤ 0 →
      Ai.rawTotal (g :: gs) = Ai.rawTotal gs ∧
      App.calculate_total_carbon (g :: gs) = App.calculate_total_carbon gs) ∧
    (∀ gs : List StaffGroup, 0 ≤ Ai.calculate_total_carbon_emission gs) ∧
    (∀ gs1 gs2 : List StaffGroup,
      List.Forall₂ (fun g1 g2 => g1.travelMode = g2.travelMode ∧
        g1.staffCount ≤ g2.staffCount ∧ g1.travelDistanceKm ≤ g2.travelDistanceKm) gs1 gs2 →
      Ai.calculate_total_carbon_emission gs1 ≤ Ai.calculate_total_carbon_emission gs2) ∧
    (∀ gs : List StaffGroup,
      (∀ g ∈ gs, 0 < g.travelDistanceKm → (App.EMISSION_FACTORS g.travelMode).isSome) →
      App.calculate_total_carbon gs = some ((gs.map fun g =>
        if 0 < g.travelDistanceKm then
          g.travelDistanceKm * ((App.EMISSION_FACTORS g.travelMode).getD 0) *
            (g.staffCount : ℚ)
        else 0).sum)) := by
  refine ⟨fun gs => rfl, fun g gs hd => ⟨?_, ?_⟩, fun gs => ?_, fun gs1 gs2 h => ?_, ?_⟩
  · rw [Ai.rawTotal, if_pos hd]
  · rw [App.calculate_total_carbon, if_pos hd]
  · exact round1_nonneg (Ai.rawTotal_nonneg gs)
  · exact round1_mono (Ai.rawTotal_mono h)
  · intro gs
    induction gs with
    | nil =>
      intro _
      simp [App.calculate_total_carbon]
    | cons g gs ih =>
      intro h
      have htail := fun g2 hg2 => h g2 (List.mem_cons_of_mem _ hg2)
      rw [App.calculate_total_carbon, List.map_cons, List.sum_cons]
      by_cases hd : g.travelDistanceKm ≤ 0
      · rw [if_pos hd, if_neg (not_lt.mpr hd), ih htail]
        norm_num
      · push_neg at hd
        obtain ⟨f, hf⟩ := Option.isSome_iff_exists.mp
          (h g (List.mem_cons_self g gs) hd)
        rw [if_neg (not_le.mpr hd), hf, ih htail, if_pos hd]
        rfl

/-- Witness for the amended C7 at concrete groups. -/
theorem c7_emission_witness :
    Ai.rawTotal [⟨5, 0, "Car", "Budget"⟩, ⟨1, 10, "Train", "Budget"⟩] =
      Ai.rawTotal [⟨1, 10, "Train", "Budget"⟩] ∧
    Ai.calculate_total_carbon_emission [⟨1, 10, "Train", "Budget"⟩] ≤
      Ai.calculate_total_carbon_emission [⟨2, 20, "Train", "Budget"⟩] ∧
    App.calculate_total_carbon [⟨2, 100, "Car", "3-star"⟩] =
      some ((([⟨2, 100, "Car", "3-star"⟩] : List StaffGroup).map fun g =>
        if 0 < g.travelDistanceKm then
          g.travelDistanceKm * ((App.EMISSION_FACTORS g.travelMode).getD 0) *
            (g.staffCount : ℚ)
        else 0).sum) :=
  ⟨(c7_emission_amended.2.1 ⟨5, 0, "Car", "Budget"⟩ [⟨1, 10, "Train", "Budget"⟩]
      (by norm_num)).1,
   c7_emission_amended.2.2.2.1 [⟨1, 10, "Train", "Budget"⟩] [⟨2, 20, "Train", "Budget"⟩]
      (by
        refine List.Forall₂.cons ?_ List.Forall₂.nil
        refine ⟨rfl, ?_, ?_⟩ <;> norm_num),
   c7_emission_amended.2.2.2.2 [⟨2, 100, "Car", "3-star"⟩] (by
      intro g hg hd
      simp only [List.mem_singleton] at hg
      subst hg
      decide)⟩

/-- Helper: renaming "Air" leaves every field except the mode unchanged. -/
theorem renameAirGroup_fields (g : StaffGroup) :
    (renameAirGroup g).staffCount = g.staffCount ∧
    (renameAirGroup g).travelDistanceKm = g.travelDistanceKm ∧
    (renameAirGroup g).accommodation = g.accommodation :=
  ⟨rfl, rfl, rfl⟩

/-- Helper: a factor found in app.py's emission table equals the factor
ai.py's default lookup produces for the corresponding mode (with "Air"
renamed to "Air - Economy"). -/
theorem App.factor_agrees_ai (m : String) (f : ℚ)
    (h : App.EMISSION_FACTORS m = some f) :
    (Ai.EMISSION_FACTORS (if m = "Air" then "Air - Economy" else m)).getD (12/100) = f := by
  unfold App.EMISSION_FACTORS at h
  split_ifs at h with h1 h2 h3 h4 h5
  · cases h
    rw [h1]
    rfl
  · cases h
    rw [if_neg (by rw [h2]; decide), h2]
    rfl
  · cases h
    rw [if_neg (by rw [h3]; decide), h3]
    rfl
  · cases h
    rw [if_neg (by rw [h4]; decide), h4]
    rfl
  · cases h
    rw [if_neg (by rw [h5]; decide), h5]
    rfl

/-- Helper: whenever every positive-distance group's mode is in app.py's
table, app.py's carbon total equals the unrounded ai.py total of the
Air-renamed groups. -/
theorem App.carbon_agrees_ai :
    ∀ gs : List StaffGroup,
      (∀ g ∈ gs, 0 < g.travelDistanceKm → (App.EMISSION_FACTORS g.travelMode).isSome) →
      App.calculate_total_carbon gs = some (Ai.rawTotal (gs.map renameAirGroup)) := by
  intro gs
  induction gs with
  | nil => intro _; rfl
  | cons g gs ih =>
    intro h
    have htail := fun g2 hg2 => h g2 (List.mem_cons_of_mem _ hg2)
    rw [List.map_cons, App.calculate_total_carbon, Ai.rawTotal]
    by_cases hd : g.travelDistanceKm ≤ 0
    · rw [if_pos hd, if_pos (show (renameAirGroup g).travelDistanceKm ≤ 0 from hd)]
      exact ih htail
    · push_neg at hd
      obtain ⟨f, hf⟩ := Option.isSome_iff_exists.mp (h g (List.mem_cons_self g gs) hd)
      have hfA : (Ai.EMISSION_FACTORS (renameAirGroup g).travelMode).getD (12/100) = f :=
        App.factor_agrees_ai g.travelMode f hf
      rw [if_neg (not_le.mpr hd),
          if_neg (show ¬ (renameAirGroup g).travelDistanceKm ≤ 0 from not_le.mpr hd),
          hf, ih htail, hfA]
      rfl

/-- Helper: when every positive-quantity entry is custom with a nonzero
custom weight or has a known predefined name, the app.py material loop
succeeds with exactly the totals of the ai.py fold. -/
theorem App.matLoop_agrees_ai :
    ∀ (ms : List Material),
      (∀ m ∈ ms, 0 < m.quantity →
        m.type = "Other (Custom)" ∨ (PREDEFINED_MATERIALS m.type).isSome) →
      (∀ m ∈ ms, 0 < m.quantity → m.type = "Other (Custom)" → m.custom_weight ≠ 0) →
      ∀ (acc res : App.MatAcc),
        App.matLoop acc ms = some res →
        ms.foldl Ai.matStep
            ⟨acc.total_impact, acc.total_recyclable, acc.total_quantity, acc.total_plastic⟩ =
          ⟨res.total_impact, res.total_recyclable, res.total_quantity, res.total_plastic⟩ := by
  intro ms
  induction ms with
  | nil =>
    intro _ _ acc res hres
    rw [App.matLoop] at hres
    cases hres
    rfl
  | cons m ms ih =>
    intro h hw acc res hres
    have htail := fun m2 hm2 => h m2 (List.mem_cons_of_mem _ hm2)
    have hwtail := fun m2 hm2 => hw m2 (List.mem_cons_of_mem _ hm2)
    rw [App.matLoop] at hres
    rw [List.foldl_cons]
    by_cases hq : m.quantity ≤ 0
    · have hstep : App.matStep acc m = some acc := by
        rw [App.matStep, if_pos hq]
      rw [hstep] at hres
      have hcs : Ai.matStep
          ⟨acc.total_impact, acc.total_recyclable, acc.total_quantity, acc.total_plastic⟩ m =
          ⟨acc.total_impact, acc.total_recyclable, acc.total_quantity, acc.total_plastic⟩ := by
        rw [Ai.matStep, if_pos hq]
      rw [hcs]
      exact ih htail hwtail acc res hres
    · push_neg at hq
      by_cases hc : m.type = "Other (Custom)"
      · have hcw : m.custom_weight ≠ 0 := hw m (List.mem_cons_self m ms) hq hc
        have hstep : App.matStep acc m = some
            ⟨acc.total_impact + (m.quantity / 100) * (m.custom_weight : ℤ),
             if m.custom_recyclable then acc.total_recyclable + m.quantity
               else acc.total_recyclable,
             acc.total_quantity + m.quantity,
             if m.material_type = "Plastic" then acc.total_plastic + m.quantity
               else acc.total_plastic,
             some (m.custom_weight, m.custom_recyclable)⟩ := by
          rw [App.matStep, if_neg (not_le.mpr hq)]
          simp only [if_pos hc]
        rw [hstep] at hres
        have hres2 : Ai.resolve m = (m.custom_weight, m.custom_recyclable) := by
          rw [Ai.resolve, if_pos hc, if_pos hcw]
        have hcs : Ai.matStep
            ⟨acc.total_impact, acc.total_recyclable, acc.total_quantity, acc.total_plastic⟩ m =
            ⟨acc.total_impact + (m.quantity / 100) * (m.custom_weight : ℤ),
             if m.custom_recyclable then acc.total_recyclable + m.quantity
               else acc.total_recyclable,
             acc.total_quantity + m.quantity,
             if m.material_type = "Plastic" then acc.total_plastic + m.quantity
               else acc.total_plastic⟩ := by
          rw [Ai.matStep, if_neg (not_le.mpr hq), hres2]
        rw [hcs]
        exact ih htail hwtail _ res hres
      · have hs : (PREDEFINED_MATERIALS m.type).isSome :=
          (h m (List.mem_cons_self m ms) hq).resolve_left hc
        obtain ⟨wr, hwr⟩ := Option.isSome_iff_exists.mp hs
        obtain ⟨w, r⟩ := wr
        have hstep : App.matStep acc m = some
            ⟨acc.total_impact + (m.quantity / 100) * (w : ℤ),
             if r then acc.total_recyclable + m.quantity else acc.total_recyclable,
             acc.total_quantity + m.quantity,
             if m.material_type = "Plastic" then acc.total_plastic + m.quantity
               else acc.total_plastic,
             some (w, r)⟩ := by
          rw [App.matStep, if_neg (not_le.mpr hq)]
          simp only [if_neg hc, hwr]
        rw [hstep] at hres
        have hres2 : Ai.resolve m = (w, r) := by
          rw [Ai.resolve, if_neg hc, hwr]
        have hcs : Ai.matStep
            ⟨acc.total_impact, acc.total_recyclable, acc.total_quantity, acc.total_plastic⟩ m =
            ⟨acc.total_impact + (m.quantity / 100) * (w : ℤ),
             if r then acc.total_recyclable + m.quantity else acc.total_recyclable,
             acc.total_quantity + m.quantity,
             if m.material_type = "Plastic" then acc.total_plastic + m.quantity
               else acc.total_plastic⟩ := by
          rw [Ai.matStep, if_neg (not_le.mpr hq), hres2]
        rw [hcs]
        exact ih htail hwtail _ res hres

/-- Helper: on valid accommodation values, ai.py's accommodation points
total over the Air-renamed groups equals app.py's weighted sum. -/
theorem Ai.total_acc_score_agrees_app :
    ∀ gs : List StaffGroup,
      (∀ g ∈ gs, g.accommodation = "Budget" ∨ g.accommodation = "3-star" ∨
        g.accommodation = "4-star" ∨ g.accommodation = "5-star") →
      Ai.total_acc_score (gs.map renameAirGroup) =
        some ((gs.map fun g =>
          (if g.accommodation = "Budget" ∨ g.accommodation = "3-star" then 15
           else if g.accommodation = "4-star" then 10 else 5) * g.staffCount).sum) := by
  intro gs
  induction gs with
  | nil => intro _; rfl
  | cons g gs ih =>
    intro h
    rw [List.map_cons, Ai.total_acc_score, List.map_cons, List.sum_cons]
    have hmap : Ai.acc_score_map (renameAirGroup g).accommodation =
        some (if g.accommodation = "Budget" ∨ g.accommodation = "3-star" then 15
          else if g.accommodation = "4-star" then 10 else 5) := by
      show Ai.acc_score_map g.accommodation = _
      rcases h g (List.mem_cons_self g gs) with h1 | h1 | h1 | h1 <;> rw [h1] <;> rfl
    rw [hmap, ih fun g2 hg2 => h g2 (List.mem_cons_of_mem _ hg2)]
    rfl

/-- Helper: one ai.py material-loop step preserves the invariants
0 ≤ impact, 0 ≤ recyclable ≤ quantity. -/
theorem Ai.matStep_preserves (acc : Ai.MatAcc) (m : Material)
    (h1 : 0 ≤ acc.total_impact) (h2 : 0 ≤ acc.total_recyclable)
    (h3 : acc.total_recyclable ≤ acc.total_qty) :
    0 ≤ (Ai.matStep acc m).total_impact ∧
    0 ≤ (Ai.matStep acc m).total_recyclable ∧
    (Ai.matStep acc m).total_recyclable ≤ (Ai.matStep acc m).total_qty := by
  unfold Ai.matStep
  by_cases hq : m.quantity ≤ 0
  · rw [if_pos hq]
    exact ⟨h1, h2, h3⟩
  · rw [if_neg hq]
    push_neg at hq
    refine ⟨?_, ?_, ?_⟩
    · have hw : (0 : ℤ) ≤ (m.quantity / 100) * ((Ai.resolve m).1 : ℤ) :=
        mul_nonneg (Int.ediv_nonneg hq.le (by norm_num)) (by positivity)
      simpa using add_nonneg h1 hw
    · simp only
      split_ifs
      · linarith
      · exact h2
    · simp only
      split_ifs
      · linarith
      · linarith

/-- Helper: the ai.py material fold preserves the invariants. -/
theorem Ai.matLoop_preserves :
    ∀ (ms : List Material) (acc : Ai.MatAcc),
      0 ≤ acc.total_impact → 0 ≤ acc.total_recyclable →
      acc.total_recyclable ≤ acc.total_qty →
      0 ≤ (ms.foldl Ai.matStep acc).total_impact ∧
      0 ≤ (ms.foldl Ai.matStep acc).total_recyclable ∧
      (ms.foldl Ai.matStep acc).total_recyclable ≤
        (ms.foldl Ai.matStep acc).total_qty := by
  intro ms
  induction ms with
  | nil =>
    intro acc h1 h2 h3
    exact ⟨h1, h2, h3⟩
  | cons m ms ih =>
    intro acc h1 h2 h3
    rw [List.foldl_cons]
    obtain ⟨g1, g2, g3⟩ := Ai.matStep_preserves acc m h1 h2 h3
    exact ih _ g1 g2 g3

/-- Helper: the ai.py material fold ignores a list of entries that all
have non-positive quantity. -/
theorem Ai.foldl_skip_nonpos :
    ∀ (ms : List Material) (acc : Ai.MatAcc), (∀ m ∈ ms, m.quantity ≤ 0) →
      ms.foldl Ai.matStep acc = acc := by
  intro ms
  induction ms with
  | nil => intro acc _; rfl
  | cons m ms ih =>
    intro acc h
    rw [List.foldl_cons]
    have hcs : Ai.matStep acc m = acc := by
      rw [Ai.matStep, if_pos (h m (List.mem_cons_self m ms))]
    rw [hcs]
    exact ih acc fun m2 hm2 => h m2 (List.mem_cons_of_mem _ hm2)

/-- C5 (amended): app.py's analyzer returns the exact recyclable rate
(recyclable / total × 100 when total > 0, and exactly 100 when total is 0,
never a division error), with the rate always in [0, 100] and a
non-negative integer impact; ai.py's and chatrobot.py's analyzers likewise
keep the rate in [0, 100], keep the impact non-negative, and return the
100-default metrics when every quantity is non-positive; and on lists
whose positive-quantity entries have known predefined names or are custom
— with nonzero custom weight in ai.py's case, since ai.py substitutes
weight 5 for a zero custom weight — they return exactly app.py's metrics
with the rate rounded to one decimal place (round-half-even). -/
theorem c5_material_metrics_amended :
    (∀ (ms : List Material) (ti : ℤ) (rate : ℚ) (tp : ℤ),
      App.calculate_material_metrics ms = some (ti, rate, tp) →
      0 ≤ ti ∧ 0 ≤ rate ∧ rate ≤ 100) ∧
    (∀ ms : List Material,
      0 ≤ (Chatrobot.calculate_material_metrics ms).1 ∧
      0 ≤ (Chatrobot.calculate_material_metrics ms).2 ∧
      (Chatrobot.calculate_material_metrics ms).2 ≤ 100) ∧
    (∀ ms : List Material,
      0 ≤ (Ai.calculate_material_metrics ms).1 ∧
      0 ≤ (Ai.calculate_material_metrics ms).2.1 ∧
      (Ai.calculate_material_metrics ms).2.1 ≤ 100) ∧
    (∀ ms : List Material, (∀ m ∈ ms, m.quantity ≤ 0) →
      App.calculate_material_metrics ms = some (0, 100, 0) ∧
      Chatrobot.calculate_material_metrics ms = (0, 100) ∧
      Ai.calculate_material_metrics ms = (0, 100, 0)) ∧
    (∀ ms : List Material,
      (∀ m ∈ ms, 0 < m.quantity →
        m.type = "Other (Custom)" ∨ (PREDEFINED_MATERIALS m.type).isSome) →
      ∀ (ti : ℤ) (rate : ℚ) (tp : ℤ),
        App.calculate_material_metrics ms = some (ti, rate, tp) →
        Chatrobot.calculate_material_metrics ms = (ti, round1 rate)) ∧
    (∀ ms : List Material,
      (∀ m ∈ ms, 0 < m.quantity →
        m.type = "Other (Custom)" ∨ (PREDEFINED_MATERIALS m.type).isSome) →
      (∀ m ∈ ms, 0 < m.quantity → m.type = "Other (Custom)" →
        m.custom_weight ≠ 0) →
      ∀ (ti : ℤ) (rate : ℚ) (tp : ℤ),
        App.calculate_material_metrics ms = some (ti, rate, tp) →
        Ai.calculate_material_metrics ms = (ti, round1 rate, tp)) := by
  refine ⟨?_, ?_, ?_, ?_, ?_, ?_⟩
  · intro ms ti rate tp h
    rw [App.calculate_material_metrics, Option.map_eq_some'] at h
    obtain ⟨res, hl, hres⟩ := h
    have hti : res.total_impact = ti := congrArg Prod.fst hres
    have hrate : (if 0 < res.total_quantity then
        (res.total_recyclable : ℚ) / (res.total_quantity : ℚ) * 100 else 100) = rate :=
      congrArg (fun p => p.2.1) hres
    obtain ⟨g1, g2, g3⟩ :=
      App.matLoop_bounds ms _ res hl (by norm_num) (by norm_num) (by norm_num)
    obtain ⟨b1, b2⟩ := rate_expr_bounds g2 g3
    rw [hrate] at b1 b2
    exact ⟨hti ▸ g1, b1, b2⟩
  · intro ms
    obtain ⟨g1, g2, g3⟩ :=
      Chatrobot.matLoop_invariant ms ⟨0, 0, 0⟩ (by norm_num) (by norm_num) (by norm_num)
    obtain ⟨b1, b2⟩ := rate_expr_bounds g2 g3
    exact ⟨g1, round1_nonneg b1, round1_le_100 b2⟩
  · intro ms
    obtain ⟨g1, g2, g3⟩ :=
      Ai.matLoop_preserves ms ⟨0, 0, 0, 0⟩ (by norm_num) (by norm_num) (by norm_num)
    obtain ⟨b1, b2⟩ := rate_expr_bounds g2 g3
    exact ⟨g1, round1_nonneg b1, round1_le_100 b2⟩
  · intro ms h
    refine ⟨?_, ?_, ?_⟩
    · rw [App.calculate_material_metrics, App.matLoop_all_nonpos ms _ h]
      norm_num
    · rw [Chatrobot.calculate_material_metrics, Chatrobot.foldl_all_nonpos ms _ h]
      norm_num [round1_hundred]
    · rw [Ai.calculate_material_metrics, Ai.foldl_skip_nonpos ms _ h]
      norm_num [round1_hundred]
  · intro ms hknown ti rate tp h
    rw [App.calculate_material_metrics, Option.map_eq_some'] at h
    obtain ⟨res, hl, hres⟩ := h
    have hti : res.total_impact = ti := congrArg Prod.fst hres
    have hrate : (if 0 < res.total_quantity then
        (res.total_recyclable : ℚ) / (res.total_quantity : ℚ) * 100 else 100) = rate :=
      congrArg (fun p => p.2.1) hres
    have hfold := App.matLoop_agrees_chatrobot ms hknown _ res hl
    rw [Chatrobot.calculate_material_metrics, hfold, hti, hrate]
  · intro ms hknown hcw ti rate tp h
    rw [App.calculate_material_metrics, Option.map_eq_some'] at h
    obtain ⟨res, hl, hres⟩ := h
    have hti : res.total_impact = ti := congrArg Prod.fst hres
    have hrate : (if 0 < res.total_quantity then
        (res.total_recyclable : ℚ) / (res.total_quantity : ℚ) * 100 else 100) = rate :=
      congrArg (fun p => p.2.1) hres
    have htp : res.total_plastic = tp := congrArg (fun p => p.2.2) hres
    have hfold : ms.foldl Ai.matStep ⟨0, 0, 0, 0⟩ =
        (⟨res.total_impact, res.total_recyclable, res.total_quantity,
          res.total_plastic⟩ : Ai.MatAcc) :=
      App.matLoop_agrees_ai ms hknown hcw _ res hl
    rw [Ai.calculate_material_metrics, hfold]
    dsimp only
    rw [hti, hrate, htp]

/-- Witness for the amended C5: the all-non-positive list exercises the
100-default in all three variants, and a known-name list exercises the
ai.py agreement with app.py's exact metrics. -/
theorem c5_material_metrics_witness :
    (App.calculate_material_metrics [⟨"Plastic Tote Bags", 0, "Plastic", 0, false⟩] =
        some (0, 100, 0) ∧
      Chatrobot.calculate_material_metrics [⟨"Plastic Tote Bags", 0, "Plastic", 0, false⟩] =
        (0, 100) ∧
      Ai.calculate_material_metrics [⟨"Plastic Tote Bags", 0, "Plastic", 0, false⟩] =
        (0, 100, 0)) ∧
    Ai.calculate_material_metrics [⟨"Brochures", 200, "Paper", 0, false⟩] =
      (6, round1 100, 0) := by
  constructor
  · exact c5_material_metrics_amended.2.2.2.1
      [⟨"Plastic Tote Bags", 0, "Plastic", 0, false⟩] (by decide)
  · have hloop : App.matLoop ⟨0, 0, 0, 0, none⟩ [⟨"Brochures", 200, "Paper", 0, false⟩] =
        some ⟨6, 200, 200, 0, some (3, true)⟩ := by decide
    have hm : App.calculate_material_metrics [⟨"Brochures", 200, "Paper", 0, false⟩] =
        some (6, 100, 0) := by
      rw [App.calculate_material_metrics, hloop]
      norm_num
    exact c5_material_metrics_amended.2.2.2.2.2 [⟨"Brochures", 200, "Paper", 0, false⟩]
      (by
        intro m hm2 hq
        simp only [List.mem_singleton] at hm2
        subst hm2
        exact Or.inr (by decide))
      (by
        intro m hm2 hq hcust
        simp only [List.mem_singleton] at hm2
        subst hm2
        exact absurd hcust (by decide))
      6 100 0 hm

/-- C10 (amended): restricted to snapshots whose travel modes are in
app.py's table (with "Air" mapped to ai.py's "Air - Economy", both factor
0.25), whose accommodation values are valid, and whose materials have
known predefined names or nonzero custom weights, app.py's
calculate_scores and ai.py's calculate_sustainability_scores agree on all
four pillar scores PROVIDED the one-decimal rounding ai.py applies moves
neither the carbon total across a travel band boundary nor the recyclable
rate across a bonus threshold. -/
theorem c10_variant_equivalence_amended :
    ∀ (data : Campaign) (tc : ℚ) (ti : ℤ) (rate : ℚ) (tp : ℤ),
      (∀ g ∈ data.staffGroups, 0 < g.travelDistanceKm →
        (App.EMISSION_FACTORS g.travelMode).isSome) →
      (∀ g ∈ data.staffGroups, g.accommodation = "Budget" ∨ g.accommodation = "3-star" ∨
        g.accommodation = "4-star" ∨ g.accommodation = "5-star") →
      (∀ m ∈ data.materials, 0 < m.quantity →
        m.type = "Other (Custom)" ∨ (PREDEFINED_MATERIALS m.type).isSome) →
      (∀ m ∈ data.materials, 0 < m.quantity → m.type = "Other (Custom)" →
        m.custom_weight ≠ 0) →
      App.calculate_total_carbon data.staffGroups = some tc →
      App.calculate_material_metrics data.materials = some (ti, rate, tp) →
      travel_score (round1 tc) = travel_score tc →
      recyclable_bonus (round1 rate) = recyclable_bonus rate →
      Ai.calculate_sustainability_scores (renameAir data) = App.calculate_scores data := by
  intro data tc ti rate tp hmode hacc hmat hcw hc hm hts hrb
  rw [App.calculate_scores, hc, hm]
  have hsg : (renameAir data).staffGroups = data.staffGroups.map renameAirGroup := rfl
  have hms : (renameAir data).materials = data.materials := rfl
  have hraw : Ai.rawTotal (data.staffGroups.map renameAirGroup) = tc := by
    have h2 := App.carbon_agrees_ai data.staffGroups hmode
    rw [hc] at h2
    exact (Option.some.inj h2).symm
  have hcA : Ai.calculate_total_carbon_emission ((renameAir data).staffGroups) =
      round1 tc := by
    rw [hsg, Ai.calculate_total_carbon_emission, hraw]
  have hmA : Ai.calculate_material_metrics ((renameAir data).materials) =
      (ti, round1 rate, tp) := by
    rw [hms]
    rw [App.calculate_material_metrics, Option.map_eq_some'] at hm
    obtain ⟨res, hl, hres⟩ := hm
    have hti : res.total_impact = ti := congrArg Prod.fst hres
    have hrate : (if 0 < res.total_quantity then
        (res.total_recyclable : ℚ) / (res.total_quantity : ℚ) * 100 else 100) = rate :=
      congrArg (fun p => p.2.1) hres
    have htp : res.total_plastic = tp := congrArg (fun p => p.2.2) hres
    have hfold : data.materials.foldl Ai.matStep ⟨0, 0, 0, 0⟩ =
        (⟨res.total_impact, res.total_recyclable, res.total_quantity,
          res.total_plastic⟩ : Ai.MatAcc) :=
      App.matLoop_agrees_ai data.materials hmat hcw _ res hl
    rw [Ai.calculate_material_metrics, hfold]
    dsimp only
    rw [hti, hrate, htp]
  have hS := Ai.total_acc_score_agrees_app data.staffGroups hacc
  have hstaff : ((data.staffGroups.map renameAirGroup).map StaffGroup.staffCount).sum =
      (data.staffGroups.map StaffGroup.staffCount).sum := by
    rw [List.map_map]
    rfl
  rw [Ai.calculate_sustainability_scores]
  rw [hcA, hmA, hsg, hS]
  dsimp only
  rw [hts, hrb, hstaff]
  rw [App.accommodation_score]
  have h1 : (renameAir data).localVendorPercent = data.localVendorPercent := rfl
  have h2 : (renameAir data).governance_checks = data.governance_checks := rfl
  have h3 : (renameAir data).operations_checks = data.operations_checks := rfl
  simp only [h1, h2, h3, Nat.cast_ite, Nat.cast_zero, Int.natCast_div]

/-- C10 counterexample: a snapshot whose only travel mode is "Train"
(recognized by both tables, factor 0.06) and whose materials list is empty
already separates the two variants: the exact carbon total 500.04 falls to
app.py's catch-all travel band 8, while ai.py rounds it to 500.0 and awards
20, so the Environmental pillar differs (33 versus 45). -/
theorem c10_variant_equivalence_counterexample :
    App.calculate_scores ⟨[⟨1, 8334, "Train", "Budget"⟩], [], 0,
      [false, false, false, false, false], [false, false, false, false, false]⟩ =
      some ⟨33, 15, 0, 0⟩ ∧
    Ai.calculate_sustainability_scores ⟨[⟨1, 8334, "Train", "Budget"⟩], [], 0,
      [false, false, false, false, false], [false, false, false, false, false]⟩ =
      some ⟨45, 15, 0, 0⟩ := by
  have hrb : recyclable_bonus 100 = 5 := by norm_num [recyclable_bonus]
  have hm : App.calculate_material_metrics ([] : List Material) = some (0, 100, 0) := by
    simp [App.calculate_material_metrics, App.matLoop]
  constructor
  · have hfac : App.EMISSION_FACTORS "Train" = some (6/100) := rfl
    have hc : App.calculate_total_carbon [⟨1, 8334, "Train", "Budget"⟩] =
        some (12501/25) := by
      norm_num [App.calculate_total_carbon, hfac]
    have hts : travel_score (12501/25) = 8 := by norm_num [travel_score]
    have hacc : App.accommodation_score [⟨1, 8334, "Train", "Budget"⟩] = 15 := by decide
    simp only [App.calculate_scores, hc, hm, hts, hrb, hacc, local_score_0]
    decide
  · have hfac : (Ai.EMISSION_FACTORS "Train").getD (12/100) = 6/100 := rfl
    have hraw : Ai.rawTotal [⟨1, 8334, "Train", "Budget"⟩] = 12501/25 := by
      simp only [Ai.rawTotal, hfac]
      norm_num
    have hcA : Ai.calculate_total_carbon_emission [⟨1, 8334, "Train", "Budget"⟩] = 500 := by
      rw [Ai.calculate_total_carbon_emission, hraw]
      rw [round1_eq_of_lt (f := 5000) (by norm_num) (by norm_num)]
      norm_num
    have hts : travel_score 500 = 20 := by norm_num [travel_score]
    have hmA : Ai.calculate_material_metrics ([] : List Material) = (0, 100, 0) := by
      rw [Ai.calculate_material_metrics]
      simp [round1_hundred]
    have haccA : Ai.total_acc_score [⟨1, 8334, "Train", "Budget"⟩] = some 15 := by decide
    simp only [Ai.calculate_sustainability_scores, hcA, hmA, haccA, hts, hrb, local_score_0]
    decide

/-- Witness for the amended C10 at a concrete restricted snapshot where
rounding crosses no boundary. -/
theorem c10_variant_equivalence_witness :
    Ai.calculate_sustainability_scores (renameAir
      ⟨[⟨1, 100, "Air", "4-star"⟩], [⟨"Brochures", 200, "Paper", 0, false⟩], 70,
        [true, false, false, false, false], [false, false, false, false, false]⟩) =
    App.calculate_scores
      ⟨[⟨1, 100, "Air", "4-star"⟩], [⟨"Brochures", 200, "Paper", 0, false⟩], 70,
        [true, false, false, false, false], [false, false, false, false, false]⟩ := by
  have h25 : round1 (25 : ℚ) = 25 := by
    have h := round1_intCast 25
    norm_num at h
    exact h
  have h100 : round1 (100 : ℚ) = 100 := round1_hundred
  have hfac : App.EMISSION_FACTORS "Air" = some (25/100) := rfl
  have hc : App.calculate_total_carbon [⟨1, 100, "Air", "4-star"⟩] = some 25 := by
    norm_num [App.calculate_total_carbon, hfac]
  have hloop : App.matLoop ⟨0, 0, 0, 0, none⟩ [⟨"Brochures", 200, "Paper", 0, false⟩] =
      some ⟨6, 200, 200, 0, some (3, true)⟩ := by decide
  have hm : App.calculate_material_metrics [⟨"Brochures", 200, "Paper", 0, false⟩] =
      some (6, 100, 0) := by
    rw [App.calculate_material_metrics, hloop]
    norm_num
  exact c10_variant_equivalence_amended _ 25 6 100 0
    (by intro g hg hd; simp only [List.mem_singleton] at hg; subst hg; decide)
    (by intro g hg; simp only [List.mem_singleton] at hg; subst hg; decide)
    (by intro m hm2 hq; simp only [List.mem_singleton] at hm2; subst hm2; decide)
    (by
      intro m hm2 hq hcust
      simp only [List.mem_singleton] at hm2
      subst hm2
      exact absurd hcust (by decide))
    hc hm (by rw [h25]) (by rw [h100])
